import Mathlib

/-!
Verification development for the wtop process-monitor core (src/wtop.cpp).

The C++ source is shallowly embedded below:
- 64-bit unsigned (`ULONGLONG`) arithmetic is modelled on `Nat` with an
  explicit wraparound `% 2 ^ 64` (`add64`, `sub64`);
- the `float`/`double` percentage computations are modelled exactly over `ℚ`;
- the two `std::map<DWORD, ULONGLONG>` baselines (`lastProcTime`,
  `lastSysTime`) are modelled as total functions `Nat → Nat`, matching
  `operator[]`, which default-inserts `0` for an absent key;
- wide strings are lists of character codes (`List Nat`), with `towlower`
  modelled on the ASCII range;
- fallible OS queries (`GetSystemTimes`, `OpenProcess`,
  `GetProcessMemoryInfo`, `GetProcessTimes`, `CreateToolhelp32Snapshot`)
  become `Option`/`Bool` inputs supplied to each cycle;
- `std::sort` with the comparator of `GetProcesses` is modelled with the
  deterministic comparison sort `List.mergeSort` over the same comparator.
-/

/-- Wraparound addition of two `ULONGLONG` values. -/
def add64 (a b : Nat) : Nat := (a + b) % 2 ^ 64

/-- Wraparound subtraction `a - b` of two `ULONGLONG` values. -/
def sub64 (a b : Nat) : Nat := (a + (2 ^ 64 - b % 2 ^ 64)) % 2 ^ 64

/-- One row of `GetProcesses`' output: the C++ `ProcessInfo` struct
(pid, name, working-set memory, computed CPU percentage). -/
structure ProcessInfo where
  pid : Nat
  name : List Nat
  memory : Nat
  cpu : ℚ
deriving DecidableEq, Repr

/-- The two global baseline maps `lastProcTime` and `lastSysTime`,
as total functions because `std::map::operator[]` reads an absent key
as `0`. -/
structure Baselines where
  procT : Nat → Nat
  sysT : Nat → Nat

/-- Both baseline maps empty: the program's startup state. -/
def zeroBaselines : Baselines := ⟨fun _ => 0, fun _ => 0⟩

/-- One `GetSystemTimes` result (idle, kernel, user `FILETIME`s as
64-bit tick counts). -/
structure SysTimes where
  idle : Nat
  kernel : Nat
  user : Nat
deriving DecidableEq, Repr

/-- `GetSystemCPU` (wtop.cpp:68-83): the input is `none` when
`GetSystemTimes` fails (returning the `-1` sentinel without touching the
static previous sample); otherwise the previous sample is replaced and the
busy percentage of the elapsed interval is returned, `0` when the elapsed
system time is zero. -/
def getSystemCPU (prev : SysTimes) (sample : Option SysTimes) : ℚ × SysTimes :=
  match sample with
  | none => (-1, prev)
  | some cur =>
    let sys := sub64 (add64 cur.kernel cur.user) (add64 prev.kernel prev.user)
    let idleDiff := sub64 cur.idle prev.idle
    if sys = 0 then (0, cur)
    else (((sub64 sys idleDiff : ℚ) * 100) / (sys : ℚ), cur)

/-- One enumerated process as delivered by the OS to `GetProcesses`:
pid and executable name from the toolhelp walk, then the results of the
per-process queries — `openOk` is `OpenProcess` succeeding, `memInfo` the
working set when `GetProcessMemoryInfo` succeeds, `procTime` the
kernel+user cumulative CPU time when `GetProcessTimes` succeeds. -/
structure RawProc where
  pid : Nat
  name : List Nat
  openOk : Bool
  memInfo : Option Nat
  procTime : Option Nat
deriving Repr

/-- The OS input of one `GetProcesses` call: `ok` is
`CreateToolhelp32Snapshot` succeeding, `sysTime` the kernel+user total
from the `GetSystemTimes` call at wtop.cpp:100, `procs` the enumerated
process table. -/
structure Snapshot where
  ok : Bool
  sysTime : Nat
  procs : List RawProc
deriving Repr

/-- The body of the enumeration loop of `GetProcesses` (wtop.cpp:106-131)
for one process: compute memory and CPU% and update the baseline maps.
The rate is computed only when `lastSysTime[pid] > 0` and the system time
advanced; the baselines are rewritten whenever `GetProcessTimes`
succeeded. -/
def stepProc (b : Baselines) (nowSys : Nat) (rp : RawProc) : ProcessInfo × Baselines :=
  if rp.openOk then
    let mem := rp.memInfo.getD 0
    match rp.procTime with
    | some nowProc =>
      let lastP := b.procT rp.pid
      let lastS := b.sysT rp.pid
      let cpu : ℚ :=
        if 0 < lastS ∧ lastS < nowSys then
          (sub64 nowProc lastP : ℚ) * 100 / ((nowSys - lastS : Nat) : ℚ)
        else 0
      (⟨rp.pid, rp.name, mem, cpu⟩,
       ⟨fun p => if p = rp.pid then nowProc else b.procT p,
        fun p => if p = rp.pid then nowSys else b.sysT p⟩)
    | none => (⟨rp.pid, rp.name, mem, 0⟩, b)
  else (⟨rp.pid, rp.name, 0, 0⟩, b)

/-- The full enumeration loop of `GetProcesses`: fold `stepProc` over the
process table in enumeration order, threading the baseline maps. -/
def buildList (nowSys : Nat) (b : Baselines) : List RawProc → List ProcessInfo × Baselines
  | [] => ([], b)
  | rp :: rest =>
    let r := stepProc b nowSys rp
    let tail := buildList nowSys r.2 rest
    (r.1 :: tail.1, tail.2)

/-- The comparator passed to `std::sort` at wtop.cpp:137-139, as a
non-strict order usable by `List.mergeSort`: `a` may come before `b`
iff `b` does not strictly precede `a` under the active key. -/
def procLE (sortByCpu : Bool) (a b : ProcessInfo) : Bool :=
  if sortByCpu then decide (b.cpu ≤ a.cpu) else decide (b.memory ≤ a.memory)

/-- The sort step of `GetProcesses`: order by the active key descending. -/
def sortProcs (sortByCpu : Bool) (l : List ProcessInfo) : List ProcessInfo :=
  l.mergeSort (procLE sortByCpu)

/-- `GetProcesses` (wtop.cpp:94-140). `prev` is the caller's list passed
by reference: it is cleared on entry, so on enumeration failure the call
returns the empty list (not `prev`) with the baselines untouched. -/
def getProcesses (prev : List ProcessInfo) (b : Baselines) (snap : Snapshot)
    (sortByCpu : Bool) : List ProcessInfo × Baselines :=
  if snap.ok then
    let r := buildList snap.sysTime b snap.procs
    (sortProcs sortByCpu r.1, r.2)
  else ([], b)

/-- `towlower`, modelled on the ASCII range: upper-case letters map to
lower-case, every other code is unchanged. -/
def towlower (c : Nat) : Nat := if 65 ≤ c ∧ c ≤ 90 then c + 32 else c

/-- `std::wstring::find(needle) != npos`: does `needle` occur as a
contiguous substring of `hay`? -/
def containsSub (hay needle : List Nat) : Bool :=
  match hay with
  | [] => needle.isEmpty
  | _ :: t => needle.isPrefixOf hay || containsSub t needle

/-- `MatchesFilter` (wtop.cpp:142-148): empty filter matches everything,
otherwise both strings are lower-cased and a substring search decides. -/
def matchesFilter (name filt : List Nat) : Bool :=
  if filt = [] then true
  else containsSub (name.map towlower) (filt.map towlower)

/-- Is a key code printable (`iswprint`), modelled on the ASCII range. -/
def isPrintable (c : Nat) : Bool := 32 ≤ c && c ≤ 126

/-- The interactive configuration of `main` (wtop.cpp:171-175):
sort key, help flag, scroll offset (a C++ `int`), search mode flag and
the current filter text. -/
structure ViewState where
  sortByCpu : Bool
  showHelp : Bool
  scroll : Int
  searchMode : Bool
  searchFilter : List Nat
deriving DecidableEq, Repr

/-- The keyboard block of `main` (wtop.cpp:180-212). `buf` is the console
input buffer as delivered by `_getch`; one key event is consumed per cycle
(two bytes for an extended `0`/`224`-prefixed arrow key), and the
remaining buffer is returned. `filteredCount` is `filtered.size()` from
the previous render, used to clamp Down-scrolling. -/
def handleInput (vs : ViewState) (filteredCount : Nat) (buf : List Nat) :
    ViewState × List Nat :=
  match buf with
  | [] => (vs, [])
  | ch :: rest =>
    if vs.searchMode then
      if ch = 27 then ({ vs with searchMode := false, searchFilter := [] }, rest)
      else if ch = 13 then ({ vs with searchMode := false }, rest)
      else if ch = 8 then
        (if vs.searchFilter ≠ [] then
          { vs with searchFilter := vs.searchFilter.dropLast } else vs, rest)
      else if isPrintable ch then
        ({ vs with searchFilter := vs.searchFilter ++ [ch] }, rest)
      else (vs, rest)
    else if ch = 0 ∨ ch = 224 then
      match rest with
      | [] => (vs, [])
      | ch2 :: rest2 =>
        if vs.showHelp then (vs, rest2)
        else
          let vs1 := if ch2 = 72 ∧ 0 < vs.scroll then
            { vs with scroll := vs.scroll - 1 } else vs
          let vs2 := if ch2 = 80 ∧ vs1.scroll < (filteredCount : Int) - 15 then
            { vs1 with scroll := vs1.scroll + 1 } else vs1
          (vs2, rest2)
    else if ch = 9 then ({ vs with sortByCpu := !vs.sortByCpu, scroll := 0 }, rest)
    else if ch = 104 ∨ ch = 72 then ({ vs with showHelp := !vs.showHelp }, rest)
    else if ch = 47 then ({ vs with searchMode := true, searchFilter := [] }, rest)
    else (vs, rest)

/-- Feed a sequence of key events (one buffer per cycle) through
`handleInput`, with a fixed filtered count. -/
def feedKeys (vs : ViewState) (fc : Nat) : List (List Nat) → ViewState
  | [] => vs
  | b :: rest => feedKeys (handleInput vs fc b).1 fc rest

/-- The state carried across iterations of the main loop: the view
configuration, `allProcesses`, `filtered`, the two baseline maps and the
static previous sample of `GetSystemCPU`. -/
structure LoopState where
  vs : ViewState
  all : List ProcessInfo
  filtered : List ProcessInfo
  baselines : Baselines
  sysPrev : SysTimes

/-- The program's startup loop state. -/
def initState : LoopState :=
  ⟨⟨true, false, 0, false, []⟩, [], [], zeroBaselines, ⟨0, 0, 0⟩⟩

/-- One iteration of the main `while` loop (wtop.cpp:179-263): handle at
most one key event; in help mode render the help text and `continue`
(no snapshot, no rate computation); otherwise take the snapshot, update
the system CPU sample and recompute the filtered list. -/
def cycle (s : LoopState) (buf : List Nat) (snap : Snapshot)
    (sysIn : Option SysTimes) : LoopState × List Nat :=
  let r := handleInput s.vs s.filtered.length buf
  let vs := r.1
  if vs.showHelp then ({ s with vs := vs }, r.2)
  else
    let gp := getProcesses s.all s.baselines snap vs.sortByCpu
    let sc := getSystemCPU s.sysPrev sysIn
    let filtered := gp.1.filter (fun p => matchesFilter p.name vs.searchFilter)
    (⟨vs, gp.1, filtered, gp.2, sc.2⟩, r.2)

/-- A concrete OS snapshot: sixteen healthy processes, all named "a"
(code 97), memory 1, cumulative CPU time 0, with system time 100. -/
def snapA : Snapshot :=
  ⟨true, 100, (List.range 16).map (fun i => ⟨i, [97], true, some 1, some 0⟩)⟩

/-- Loop state after one keyless cycle against `snapA`. -/
def c4s1 : LoopState := (cycle initState [] snapA none).1

/-- ... then one Down-arrow press (16 filtered rows, so scrolling to 1). -/
def c4s2 : LoopState := (cycle c4s1 [224, 80] snapA none).1

/-- ... then `/` (enter search mode). -/
def c4s3 : LoopState := (cycle c4s2 [47] snapA none).1

/-- ... then typing `z` (code 122), which no process name matches. -/
def c4s4 : LoopState := (cycle c4s3 [122] snapA none).1

/-- ... then Enter, applying the filter. -/
def c4Run : LoopState := (cycle c4s4 [13] snapA none).1

/-! ### Helper lemmas -/

lemma stepProc_name (b : Baselines) (n : Nat) (rp : RawProc) :
    (stepProc b n rp).1.name = rp.name := by
  rcases rp with ⟨pid, name, ok, mi, pt⟩
  cases ok <;> cases pt <;> rfl

lemma buildList_names (n : Nat) (b : Baselines) (l : List RawProc) :
    ((buildList n b l).1).map ProcessInfo.name = l.map RawProc.name := by
  induction l generalizing b with
  | nil => rfl
  | cons rp rest ih => simp [buildList, stepProc_name, ih]

lemma buildList_length (n : Nat) (b : Baselines) (l : List RawProc) :
    ((buildList n b l).1).length = l.length := by
  have h := congrArg List.length (buildList_names n b l)
  simpa using h

lemma filter_empty_text (l : List ProcessInfo) :
    l.filter (fun p => matchesFilter p.name []) = l := by
  rw [List.filter_eq_self]
  intro a _
  rfl

lemma cycle_vs (s : LoopState) (buf : List Nat) (snap : Snapshot)
    (si : Option SysTimes) :
    ((cycle s buf snap si).1).vs = (handleInput s.vs s.filtered.length buf).1 := by
  by_cases h : (handleInput s.vs s.filtered.length buf).1.showHelp <;>
    simp [cycle, h]

lemma cycle_filtered (s : LoopState) (buf : List Nat) (snap : Snapshot)
    (si : Option SysTimes)
    (h : (handleInput s.vs s.filtered.length buf).1.showHelp = false) :
    ((cycle s buf snap si).1).filtered =
      (getProcesses s.all s.baselines snap
          (handleInput s.vs s.filtered.length buf).1.sortByCpu).1.filter
        (fun p => matchesFilter p.name
          (handleInput s.vs s.filtered.length buf).1.searchFilter) := by
  simp [cycle, h]

lemma filter_z_empty (prevl : List ProcessInfo) (b : Baselines) :
    ((getProcesses prevl b snapA true).1.filter
      (fun p => matchesFilter p.name [122])) = [] := by
  rw [List.filter_eq_nil_iff]
  intro x hx
  have hx' : x ∈ (buildList snapA.sysTime b snapA.procs).1 := by
    simp only [getProcesses, sortProcs, if_true] at hx
    exact (List.mergeSort_perm _ _).mem_iff.mp hx
  have hname : x.name ∈ (snapA.procs).map RawProc.name := by
    rw [← buildList_names snapA.sysTime b]
    exact List.mem_map_of_mem _ hx'
  have h97 : x.name = [97] := by
    simp only [snapA, List.map_map, List.mem_map] at hname
    obtain ⟨i, _, hi⟩ := hname
    exact hi.symm
  rw [h97]
  decide

lemma sub64_of_le {a b : Nat} (hba : b ≤ a) (ha : a < 2 ^ 64) :
    sub64 a b = a - b := by
  unfold sub64
  have hb : b % 2 ^ 64 = b := Nat.mod_eq_of_lt (lt_of_le_of_lt hba ha)
  rw [hb]
  have h2 : a + (2 ^ 64 - b) = (a - b) + 1 * 2 ^ 64 := by omega
  rw [h2, Nat.add_mul_mod_self_right, Nat.mod_eq_of_lt (by omega)]

lemma add64_of_lt {a b : Nat} (h : a + b < 2 ^ 64) : add64 a b = a + b :=
  Nat.mod_eq_of_lt h

lemma containsSub_iff (hay needle : List Nat) :
    containsSub hay needle = true ↔ needle <:+: hay := by
  induction hay with
  | nil => simp [containsSub, List.isEmpty_iff, List.infix_nil]
  | cons h t ih =>
    simp [containsSub, List.infix_cons_iff, List.isPrefixOf_iff_prefix, ih]

/-! ### Claims -/

/-- C1: for a process observed with cumulative CPU time `cNow` while the
system's cumulative kernel+user time is `nowSys`: if a baseline
`(c_prev, s_prev)` is stored for its pid (an absent pid reads as the
default `(0, 0)`) and `s_prev < nowSys`, the computed CPU% is exactly
`100 * (cNow - c_prev) / (nowSys - s_prev)`; if no baseline is stored
(`s_prev = 0`, the map default) or `nowSys ≤ s_prev`, the computed CPU%
is `0`. -/
theorem c1_per_process_rate (b : Baselines) (nowSys : Nat) (rp : RawProc)
    (cNow : Nat) (hopen : rp.openOk = true) (ht : rp.procTime = some cNow)
    (hbound : cNow < 2 ^ 64) :
    (0 < b.sysT rp.pid → b.sysT rp.pid < nowSys → b.procT rp.pid ≤ cNow →
      (stepProc b nowSys rp).1.cpu =
        100 * ((cNow : ℚ) - (b.procT rp.pid : ℚ)) /
          ((nowSys : ℚ) - (b.sysT rp.pid : ℚ)))
    ∧ ((b.sysT rp.pid = 0 ∨ nowSys ≤ b.sysT rp.pid) →
      (stepProc b nowSys rp).1.cpu = 0) := by
  constructor
  · intro h1 h2 h3
    simp only [stepProc, hopen, if_true, ht]
    rw [if_pos ⟨h1, h2⟩, sub64_of_le h3 hbound, Nat.cast_sub h3,
      Nat.cast_sub h2.le]
    ring
  · intro h
    simp only [stepProc, hopen, if_true, ht]
    rw [if_neg (by omega)]

/-- C1 witness: baseline `(c_prev = 1000, s_prev = 5000)` with current
`(cNow = 1200, nowSys = 5500)` yields exactly 40%. -/
theorem c1_witness :
    (stepProc ⟨fun _ => 1000, fun _ => 5000⟩ 5500
      ⟨1, [], true, some 0, some 1200⟩).1.cpu = 40 := by
  have h := (c1_per_process_rate ⟨fun _ => 1000, fun _ => 5000⟩ 5500
    ⟨1, [], true, some 0, some 1200⟩ 1200 rfl rfl (by norm_num)).1
    (by norm_num) (by norm_num) (by norm_num)
  rw [h]; norm_num

/-- C2 counterexample: feeding the sample `(idle 100, kernel 50, user 50)`
and then `(idle 120, kernel 70, user 60)` to `GetSystemCPU` does not
yield 60%: the code computes `100 * (30 - 20) / 30`, because the kernel
counter includes idle time, so the denominator is the elapsed
kernel+user time (30), not busy+idle (50). -/
theorem c2_counterexample :
    (getSystemCPU (getSystemCPU ⟨0, 0, 0⟩ (some ⟨100, 50, 50⟩)).2
      (some ⟨120, 70, 60⟩)).1 ≠ 60 := by
  norm_num [getSystemCPU, add64, sub64]

/-- C2 amended: the sample pair `(idle 100, kernel 50, user 50)` then
`(idle 120, kernel 70, user 60)` yields `100 * (30 - 20) / 30 = 100 / 3`
(≈ 33.33%). -/
theorem c2_amended_value :
    (getSystemCPU (getSystemCPU ⟨0, 0, 0⟩ (some ⟨100, 50, 50⟩)).2
      (some ⟨120, 70, 60⟩)).1 = 100 / 3 := by
  norm_num [getSystemCPU, add64, sub64]

/-- C3 counterexample: the very first `GetSystemCPU` call (static
previous sample zero-initialised) with a successful query
`(idle 120, kernel 70, user 60)` returns a computed percentage, not the
`-1` "unavailable" sentinel. -/
theorem c3_counterexample :
    (getSystemCPU ⟨0, 0, 0⟩ (some ⟨120, 70, 60⟩)).1 ≠ -1 := by
  norm_num [getSystemCPU, add64, sub64]

/-- C3 amended: on the first call the static previous sample is
zero-initialised, so a successful query returns the cumulative busy
fraction since boot, `100 * ((k + u) - idle-delta) / (k + u)` against
zeros; the `-1` sentinel is returned only when `GetSystemTimes` itself
fails. -/
theorem c3_amended (st : SysTimes) (idle k u : Nat) (hi : idle < 2 ^ 64)
    (hk : k + u < 2 ^ 64) (h0 : k + u ≠ 0) :
    (getSystemCPU ⟨0, 0, 0⟩ (some ⟨idle, k, u⟩)).1 =
      (sub64 (k + u) idle : ℚ) * 100 / ((k + u : Nat) : ℚ)
    ∧ (getSystemCPU st none).1 = -1 := by
  refine ⟨?_, rfl⟩
  have hadd : add64 k u = k + u := add64_of_lt hk
  have hz : add64 0 0 = 0 := by decide
  have hsub : sub64 (add64 k u) (add64 0 0) = k + u := by
    rw [hadd, hz, sub64_of_le (Nat.zero_le _) hk]; omega
  have hidle : sub64 idle 0 = idle := by
    rw [sub64_of_le (Nat.zero_le _) hi]; omega
  simp only [getSystemCPU, hsub, hidle]
  rw [if_neg h0]

/-- C3 witness: first call with `(idle 120, kernel 70, user 60)` yields
`100 * 10 / 130 = 100 / 13`, and a failed query yields `-1`. -/
theorem c3_witness :
    (getSystemCPU ⟨0, 0, 0⟩ (some ⟨120, 70, 60⟩)).1 = 100 / 13
    ∧ (getSystemCPU ⟨9, 9, 9⟩ none).1 = -1 := by
  have h := c3_amended ⟨9, 9, 9⟩ 120 70 60 (by norm_num) (by norm_num)
    (by norm_num)
  refine ⟨?_, h.2⟩
  rw [h.1]; norm_num [sub64]

/-- C5 counterexample: when the toolhelp enumeration fails, the
previously computed process list is not redisplayed: `GetProcesses`
clears the caller's list on entry and returns early, so the nonempty
previous list `[⟨1, "a", 5, 2⟩]` is replaced by the empty list. -/
theorem c5_counterexample :
    (getProcesses [⟨1, [97], 5, 2⟩] zeroBaselines ⟨false, 0, []⟩ true).1 ≠
      [⟨1, [97], 5, 2⟩] := by decide

/-- C5 amended: when the enumeration cannot be started the snapshot step
is not fatal — `GetProcesses` returns normally with the baselines
untouched — but the process list comes back empty (it is cleared on
entry), so an empty view, not the previous cycle's data, is displayed. -/
theorem c5_amended (prev : List ProcessInfo) (b : Baselines)
    (snap : Snapshot) (k : Bool) (h : snap.ok = false) :
    getProcesses prev b snap k = ([], b) := by
  simp [getProcesses, h]

/-- C5 witness: a failed enumeration with a nonempty previous list
returns the empty list and the unchanged baselines. -/
theorem c5_witness :
    getProcesses [⟨1, [97], 5, 2⟩] zeroBaselines ⟨false, 0, []⟩ true =
      ([], zeroBaselines) :=
  c5_amended [⟨1, [97], 5, 2⟩] zeroBaselines ⟨false, 0, []⟩ true rfl

/-- C9: a zero denominator yields 0% and never a division fault: if the
elapsed system time between the two system samples is zero,
`GetSystemCPU` returns 0, and if the system time did not advance past a
process's baseline (`nowSys ≤ s_prev`), the per-process CPU% is 0. -/
theorem c9_zero_denominator (prev cur : SysTimes) (b : Baselines)
    (rp : RawProc) (nowSys : Nat) :
    (sub64 (add64 cur.kernel cur.user) (add64 prev.kernel prev.user) = 0 →
      (getSystemCPU prev (some cur)).1 = 0)
    ∧ (nowSys ≤ b.sysT rp.pid → (stepProc b nowSys rp).1.cpu = 0) := by
  constructor
  · intro h
    simp [getSystemCPU, h]
  · intro h
    rcases rp with ⟨pid, name, ok, mi, pt⟩
    cases ok
    · simp [stepProc]
    · cases pt
      · simp [stepProc]
      · simp only [stepProc]
        dsimp only
        dsimp only at h
        have hcond : ¬(0 < b.sysT pid ∧ b.sysT pid < nowSys) := by omega
        simp [hcond]

/-- C9 witness: a system sample pair with equal kernel+user totals
yields 0%, and a process whose baseline system time equals the current
system time gets CPU% 0. -/
theorem c9_witness :
    (getSystemCPU ⟨5, 3, 4⟩ (some ⟨9, 3, 4⟩)).1 = 0
    ∧ (stepProc ⟨fun _ => 7, fun _ => 50⟩ 50
        ⟨2, [], true, some 0, some 9⟩).1.cpu = 0 :=
  ⟨(c9_zero_denominator ⟨5, 3, 4⟩ ⟨9, 3, 4⟩ zeroBaselines
      ⟨0, [], true, none, none⟩ 0).1 (by decide),
    (c9_zero_denominator ⟨5, 3, 4⟩ ⟨9, 3, 4⟩ ⟨fun _ => 7, fun _ => 50⟩
      ⟨2, [], true, some 0, some 9⟩ 50).2 le_rfl⟩

/-- C4 counterexample: the scroll offset does not always stay within
`[0, max(0, filteredCount - 15)]`. After a keyless cycle against the
16-process snapshot `snapA`, one Down press moves the offset to 1
(bound `16 - 15 = 1`); then entering search with `/`, typing `z` and
pressing Enter shrinks the filtered list to 0 rows, whose bound is 0,
while the offset stays 1 — the code never re-clamps it. -/
theorem c4_counterexample :
    ¬ (c4Run.vs.scroll ≤ max 0 ((c4Run.filtered.length : Int) - 15)) := by
  have hv1 : c4s1.vs = ⟨true, false, 0, false, []⟩ := by
    unfold c4s1; rw [cycle_vs]; rfl
  have hl1 : c4s1.filtered.length = 16 := by
    unfold c4s1
    rw [cycle_filtered _ _ _ _ (by rfl)]
    show (((getProcesses [] zeroBaselines snapA true).1).filter
      (fun p => matchesFilter p.name [])).length = 16
    rw [filter_empty_text]
    simp only [getProcesses, sortProcs]
    rw [if_pos (show snapA.ok = true from rfl)]
    dsimp only
    rw [(List.mergeSort_perm _ _).length_eq, buildList_length]
    simp [snapA]
  have hv2 : c4s2.vs = ⟨true, false, 1, false, []⟩ := by
    unfold c4s2; rw [cycle_vs, hv1, hl1]; decide
  have hv3 : c4s3.vs = ⟨true, false, 1, true, []⟩ := by
    unfold c4s3; rw [cycle_vs, hv2]; rfl
  have hv4 : c4s4.vs = ⟨true, false, 1, true, [122]⟩ := by
    unfold c4s4; rw [cycle_vs, hv3]; rfl
  have hv5 : c4Run.vs = ⟨true, false, 1, false, [122]⟩ := by
    unfold c4Run; rw [cycle_vs, hv4]; rfl
  have hflt : c4Run.filtered = [] := by
    unfold c4Run
    rw [cycle_filtered _ _ _ _ (by rw [hv4]; rfl)]
    have hh : (handleInput c4s4.vs c4s4.filtered.length [13]).1 =
        ⟨true, false, 1, false, [122]⟩ := by rw [hv4]; rfl
    rw [hh]
    exact filter_z_empty _ _
  rw [hv5, hflt]
  decide

/-- C4 amended: with the filtered count fixed, the key handler keeps the
scroll offset inside `[0, max(0, filteredCount - 15)]` — Up/Down clamp
against the current count and Tab resets to 0 — but the offset is not
re-clamped when the filtered list itself shrinks (e.g. when a filter is
applied), so it can then exceed the bound computed from the new count
(see the counterexample). -/
theorem c4_amended (vs : ViewState) (fc : Nat) (buf : List Nat)
    (h0 : 0 ≤ vs.scroll) (h1 : vs.scroll ≤ max 0 ((fc : Int) - 15)) :
    0 ≤ (handleInput vs fc buf).1.scroll ∧
      (handleInput vs fc buf).1.scroll ≤ max 0 ((fc : Int) - 15) := by
  rcases buf with _ | ⟨ch, rest⟩
  · exact ⟨h0, h1⟩
  rcases rest with _ | ⟨ch2, rest2⟩
  · simp only [handleInput]
    split_ifs <;> refine ⟨?_, ?_⟩ <;> (try dsimp only) <;> omega
  · simp only [handleInput]
    split_ifs <;> refine ⟨?_, ?_⟩ <;> (try dsimp only) <;> omega

/-- C4 amended witness: from offset 3 with 20 filtered rows, a Down
press lands on 4, inside `[0, max(0, 20 - 15)]`. -/
theorem c4_witness :
    0 ≤ (handleInput ⟨true, false, 3, false, []⟩ 20 [224, 80]).1.scroll ∧
      (handleInput ⟨true, false, 3, false, []⟩ 20 [224, 80]).1.scroll ≤
        max 0 ((20 : Nat) - 15 : Int) :=
  c4_amended ⟨true, false, 3, false, []⟩ 20 [224, 80] (by norm_num)
    (by norm_num)

/-- C6: the sort step orders any (filtered) list descending by the
active key (`procLE k a b` says `b` does not strictly precede `a` under
key `k`), the output is a permutation of the input (nothing dropped or
duplicated, the input list itself unchanged), and as a deterministic
function of its input, toggling the sort key twice restores the
original order. -/
theorem c6_sort_properties :
    ∀ (l : List ProcessInfo) (k : Bool),
      (sortProcs k l).Pairwise (fun a b => procLE k a b = true)
      ∧ (sortProcs k l).Perm l
      ∧ sortProcs (!(!k)) l = sortProcs k l := by
  intro l k
  refine ⟨List.sorted_mergeSort ?_ ?_ l, List.mergeSort_perm l _,
    by rw [Bool.not_not]⟩
  · intro a b c hab hbc
    cases k <;> simp [procLE] at hab hbc ⊢
    · exact le_trans hbc hab
    · exact le_trans hbc hab
  · intro a b
    cases k <;> simp [procLE]
    · exact le_total _ _
    · exact le_total _ _

/-- C7: `MatchesFilter` keeps a name iff the lower-cased filter text is
a contiguous substring of the lower-cased name (so matching is
case-insensitive, and the empty filter matches everything), and
filtering a list with empty filter text returns the list unchanged,
order preserved. -/
theorem c7_filter_correct :
    ∀ (name filt : List Nat),
      (matchesFilter name filt = true ↔
        (filt.map towlower) <:+: (name.map towlower))
      ∧ ∀ l : List ProcessInfo,
        l.filter (fun p => matchesFilter p.name []) = l := by
  intro name filt
  refine ⟨?_, filter_empty_text⟩
  by_cases hf : filt = []
  · subst hf
    simp [matchesFilter]
  · unfold matchesFilter
    rw [if_neg hf, containsSub_iff]

/-- C8: from any state in Normal mode, the sequence `/`, `a`, `b`, `c`,
Escape ends in Normal mode with the filter text cleared, while the same
sequence ending in Enter ends in Normal mode with filter text "abc"
(codes 97, 98, 99) retained. -/
theorem c8_search_state_machine (vs : ViewState) (fc : Nat)
    (h : vs.searchMode = false) :
    ((feedKeys vs fc [[47], [97], [98], [99], [27]]).searchMode = false
      ∧ (feedKeys vs fc [[47], [97], [98], [99], [27]]).searchFilter = [])
    ∧ ((feedKeys vs fc [[47], [97], [98], [99], [13]]).searchMode = false
      ∧ (feedKeys vs fc [[47], [97], [98], [99], [13]]).searchFilter
          = [97, 98, 99]) := by
  simp [feedKeys, handleInput, isPrintable, h]

/-- C8 witness: the two sequences from the program's initial view
state. -/
theorem c8_witness :
    ((feedKeys ⟨true, false, 0, false, []⟩ 0
        [[47], [97], [98], [99], [27]]).searchMode = false
      ∧ (feedKeys ⟨true, false, 0, false, []⟩ 0
          [[47], [97], [98], [99], [27]]).searchFilter = [])
    ∧ ((feedKeys ⟨true, false, 0, false, []⟩ 0
          [[47], [97], [98], [99], [13]]).searchMode = false
      ∧ (feedKeys ⟨true, false, 0, false, []⟩ 0
          [[47], [97], [98], [99], [13]]).searchFilter = [97, 98, 99]) :=
  c8_search_state_machine ⟨true, false, 0, false, []⟩ 0 rfl

/-- C10: in Help mode an Up/Down arrow cycle changes nothing at all —
no field of the loop state (scroll, sort key, filter text, both baseline
maps) and no snapshot is taken (the result does not depend on the
snapshot inputs); toggling Help on changes only the `showHelp` flag and
skips the snapshot, and the subsequent `h` key press restores the view
state exactly as it was before entering Help. -/
theorem c10_help_frame (s : LoopState) (c : Nat) (snap snap2 : Snapshot)
    (si si2 : Option SysTimes) (fc : Nat) :
    (s.vs.showHelp = true → s.vs.searchMode = false →
      cycle s [224, c] snap si = (s, []))
    ∧ (s.vs.showHelp = false → s.vs.searchMode = false →
      cycle s [104] snap2 si2 =
        ({ s with vs := { s.vs with showHelp := true } }, [])
      ∧ (handleInput { s.vs with showHelp := true } fc [104]).1 = s.vs) := by
  obtain ⟨⟨k, sh, sc, sm, sf⟩, al, fl, bs, sp⟩ := s
  constructor
  · intro h1 h2
    dsimp only at h1 h2
    subst h1; subst h2
    rfl
  · intro h1 h2
    dsimp only at h1 h2
    subst h1; subst h2
    exact ⟨rfl, rfl⟩

/-- C10 witness: the arrow press in Help mode and the Help on/off toggle
from the initial state. -/
theorem c10_witness :
    cycle ⟨⟨true, true, 0, false, []⟩, [], [], zeroBaselines, ⟨0, 0, 0⟩⟩
        [224, 72] snapA none
      = (⟨⟨true, true, 0, false, []⟩, [], [], zeroBaselines, ⟨0, 0, 0⟩⟩, [])
    ∧ (cycle initState [104] snapA none
        = ({ initState with vs := { initState.vs with showHelp := true } }, [])
      ∧ (handleInput { initState.vs with showHelp := true } 0 [104]).1
          = initState.vs) :=
  ⟨(c10_help_frame ⟨⟨true, true, 0, false, []⟩, [], [], zeroBaselines,
      ⟨0, 0, 0⟩⟩ 72 snapA snapA none none 0).1 rfl rfl,
    (c10_help_frame initState 72 snapA snapA none none 0).2 rfl rfl⟩
